import Mathlib

/-!
Verification of the Matriarch-Controller MIDI SysEx core.

Shallow embedding of the repository's protocol code:
- `src/midi/sysex.py` (class `MatriarchSysEx`): frame encoding/decoding,
- `src/midi/connection.py` (class `MIDIConnectionManager`): connection
  lifecycle, synchronous queries, bulk query with retries,
- `src/data/parameter_definitions.py`: the static parameter catalog and
  its value-validation rule.

MIDI messages are modelled as a type tag plus the payload byte list that
the `mido` library carries between the 0xF0/0xF7 delimiters; bytes are
natural numbers.  Real time, threads and port I/O are abstracted: the
listener's activity during a synchronous wait is the list of messages it
processes before the timeout elapses, and the connection manager's
mutable attributes become an explicit state record.
-/

/-- The `mido` message types this code distinguishes. -/
inductive MidoType where
  | sysex
  | control_change
  | other
deriving DecidableEq, Repr

/-- A `mido` message: type tag and payload data bytes (delimiters stripped,
as `mido` does). -/
structure MidoMsg where
  type : MidoType
  data : List Nat
deriving DecidableEq, Repr

/-- Constant `MatriarchSysEx.SYSEX_START` (0xF0). -/
def SYSEX_START : Nat := 0xF0

/-- Constant `MatriarchSysEx.SYSEX_END` (0xF7). -/
def SYSEX_END : Nat := 0xF7

/-- Constant `MatriarchSysEx.MANUFACTURER_ID` ([0x04, 0x17], Moog Music). -/
def MANUFACTURER_ID : List Nat := [0x04, 0x17]

/-- Constant `MatriarchSysEx.SET_PARAM_CMD` (0x23). -/
def SET_PARAM_CMD : Nat := 0x23

/-- Constant `MatriarchSysEx.GET_PARAM_CMD` (0x3E). -/
def GET_PARAM_CMD : Nat := 0x3E

/-- Source `MatriarchSysEx.create_parameter_query`: payload of the GET frame
(F0/F7 stripped, as the source strips `data[1:-1]`). -/
def create_parameter_query (unit_id parameter_id : Nat) : MidoMsg :=
  ⟨MidoType.sysex,
    MANUFACTURER_ID ++ [GET_PARAM_CMD, parameter_id,
      0x00, 0x00, 0x00, 0x00, 0x00, 0x00, 0x00, 0x00, 0x00, 0x00,
      unit_id]⟩

/-- Source `MatriarchSysEx.create_parameter_set`: payload of the SET frame.
The value split is the source's
`value_msb = value // 128 if value >= 128 else 0`, `value_lsb = value % 128`. -/
def create_parameter_set (unit_id parameter_id value : Nat) : MidoMsg :=
  ⟨MidoType.sysex,
    MANUFACTURER_ID ++ [SET_PARAM_CMD, parameter_id,
      (if value ≥ 128 then value / 128 else 0), value % 128,
      0x00, 0x00, 0x00, 0x00, 0x00, 0x00, 0x00, 0x00,
      unit_id]⟩

/-- Source `MatriarchSysEx.parse_parameter_response`: reconstructs
`data = [0xF0] + list(msg.data) + [0xF7]` and applies the source's checks
in order (length, framing bytes, manufacturer id, command byte), then
extracts `(parameter_id, msb*128 + lsb)`.  The `is_response` flag at
`data[14]` is computed in the source for logging only and does not affect
the returned pair. -/
def parse_parameter_response (msg : MidoMsg) : Option (Nat × Nat) :=
  if msg.type ≠ MidoType.sysex then none
  else
    let data := SYSEX_START :: msg.data ++ [SYSEX_END]
    if data.length < 16 then none
    else if data.getD 0 0 ≠ SYSEX_START ∨ data.getLast? ≠ some SYSEX_END then none
    else if (data.drop 1).take 2 ≠ MANUFACTURER_ID then none
    else if data.getD 3 0 ≠ SET_PARAM_CMD then none
    else some (data.getD 4 0, data.getD 5 0 * 128 + data.getD 6 0)

/-- Source `MatriarchSysEx.is_matriarch_sysex`: sysex type, at least 3 data
bytes, manufacturer prefix matches and at least 14 data bytes. -/
def is_matriarch_sysex (msg : MidoMsg) : Bool :=
  if msg.type ≠ MidoType.sysex then false
  else if msg.data.length < 3 then false
  else decide (msg.data.take 2 = MANUFACTURER_ID) && decide (msg.data.length ≥ 14)

/-- Source `MatriarchSysEx.validate_parameter_value`: rejects values outside the
global 14-bit range 0..16383; no per-parameter check is performed. -/
def validate_parameter_value (_parameter_id : Nat) (value : Int) : Bool :=
  if value < 0 ∨ value > 16383 then false else true

/-! ## Parameter catalog (`src/data/parameter_definitions.py`) -/

/-- Source `ParameterType` enum. -/
inductive ParameterType where
  | TOGGLE
  | CHOICE
  | RANGE
  | MIDI_CHANNEL
deriving DecidableEq, Repr

/-- Source class `Parameter`: the fields of the source class that take part in value
validation, plus the name for identification.  Choices keep the source
dict's insertion order as an association list of (code, label). -/
structure Parameter where
  param_id : Nat
  name : String
  param_type : ParameterType
  default_value : Int
  min_value : Option Int := none
  max_value : Option Int := none
  choices : List (Int × String) := []
deriving DecidableEq, Repr

/-- Python's `min(valid_values, key=lambda x: abs(x - value))`: first
element of minimal absolute distance wins (Python `min` keeps the earliest
minimum).  The source raises `ValueError` on an empty list; that branch is
unreachable for every catalog parameter (all `CHOICE` entries have
non-empty `choices`), and is modelled as returning `value` itself. -/
def closestChoice (value : Int) : List Int → Int
  | [] => value
  | k :: ks => ks.foldl (fun best x => if |x - value| < |best - value| then x else best) k

/-- Source `Parameter.validate_value`: clamp/normalize a value per the
parameter's type.  `TOGGLE` uses Python truthiness (`1 if value else 0`);
`CHOICE` returns the value when it is a key of `choices` and otherwise the
numerically closest key; `RANGE` clamps to `[min_value, max_value]` when
both bounds are set (falling through to `return value` otherwise);
`MIDI_CHANNEL` clamps to `[0, 15]`. -/
def validate_value (p : Parameter) (value : Int) : Int :=
  match p.param_type with
  | ParameterType.TOGGLE => if value ≠ 0 then 1 else 0
  | ParameterType.CHOICE =>
      if value ∈ p.choices.map Prod.fst then value
      else closestChoice value (p.choices.map Prod.fst)
  | ParameterType.RANGE =>
      match p.min_value, p.max_value with
      | some lo, some hi => max lo (min hi value)
      | _, _ => value
  | ParameterType.MIDI_CHANNEL => max 0 (min 15 value)

set_option maxHeartbeats 2000000 in
/-- Source dict `PARAMETERS`: the static catalog, id → definition, in the source
dict's insertion order. -/
def PARAMETERS : List (Nat × Parameter) := [
  (0, { param_id := 0, name := "Unit ID", param_type := ParameterType.RANGE,
        min_value := some 0, max_value := some 15, default_value := 0 }),
  (1, { param_id := 1, name := "Tuning Scale", param_type := ParameterType.RANGE,
        min_value := some 0, max_value := some 31, default_value := 0 }),
  (2, { param_id := 2, name := "Knob Mode", param_type := ParameterType.CHOICE,
        choices := [(0, "Snap"), (1, "Pass-Thru"), (2, "Relative")], default_value := 2 }),
  (76, { param_id := 76, name := "Load Default Settings", param_type := ParameterType.TOGGLE,
         default_value := 0 }),
  (3, { param_id := 3, name := "Note Priority", param_type := ParameterType.CHOICE,
        choices := [(0, "Low"), (1, "High"), (2, "Last Note")], default_value := 2 }),
  (37, { param_id := 37, name := "Pitch Bend Range", param_type := ParameterType.RANGE,
         min_value := some 0, max_value := some 12, default_value := 2 }),
  (38, { param_id := 38, name := "Keyboard Octave Transpose", param_type := ParameterType.CHOICE,
         choices := [(0, "-2"), (1, "-1"), (2, "0"), (3, "+1"), (4, "+2")], default_value := 2 }),
  (39, { param_id := 39, name := "Delayed Keyboard Octave Shift", param_type := ParameterType.TOGGLE,
         default_value := 1 }),
  (40, { param_id := 40, name := "Glide Type", param_type := ParameterType.CHOICE,
         choices := [(0, "Linear Constant Rate"), (1, "Linear Constant Time"), (2, "Exponential")],
         default_value := 0 }),
  (41, { param_id := 41, name := "Gated Glide", param_type := ParameterType.TOGGLE,
         default_value := 1 }),
  (42, { param_id := 42, name := "Legato Glide", param_type := ParameterType.TOGGLE,
         default_value := 1 }),
  (43, { param_id := 43, name := "Osc 2 Freq Knob Range", param_type := ParameterType.RANGE,
         min_value := some 0, max_value := some 24, default_value := 7 }),
  (44, { param_id := 44, name := "Osc 3 Freq Knob Range", param_type := ParameterType.RANGE,
         min_value := some 0, max_value := some 24, default_value := 7 }),
  (45, { param_id := 45, name := "Osc 4 Freq Knob Range", param_type := ParameterType.RANGE,
         min_value := some 0, max_value := some 24, default_value := 7 }),
  (46, { param_id := 46, name := "Hard Sync Enable", param_type := ParameterType.TOGGLE,
         default_value := 0 }),
  (47, { param_id := 47, name := "Osc 2 Hard Sync", param_type := ParameterType.TOGGLE,
         default_value := 0 }),
  (48, { param_id := 48, name := "Osc 3 Hard Sync", param_type := ParameterType.TOGGLE,
         default_value := 0 }),
  (49, { param_id := 49, name := "Osc 4 Hard Sync", param_type := ParameterType.TOGGLE,
         default_value := 0 }),
  (50, { param_id := 50, name := "Delay Ping Pong", param_type := ParameterType.TOGGLE,
         default_value := 0 }),
  (51, { param_id := 51, name := "Delay Sync", param_type := ParameterType.TOGGLE,
         default_value := 0 }),
  (52, { param_id := 52, name := "Delay Filter Brightness", param_type := ParameterType.CHOICE,
         choices := [(0, "Dark"), (1, "Bright")], default_value := 1 }),
  (53, { param_id := 53, name := "Delay CV Sync-Bend", param_type := ParameterType.TOGGLE,
         default_value := 0 }),
  (54, { param_id := 54, name := "Tap-Tempo Clock Division Persistence",
         param_type := ParameterType.TOGGLE, default_value := 0 }),
  (55, { param_id := 55, name := "Paraphony Mode", param_type := ParameterType.CHOICE,
         choices := [(0, "Mono"), (1, "Duo"), (2, "Quad")], default_value := 0 }),
  (56, { param_id := 56, name := "Paraphonic Unison", param_type := ParameterType.TOGGLE,
         default_value := 0 }),
  (57, { param_id := 57, name := "Multi Trig", param_type := ParameterType.TOGGLE,
         default_value := 0 }),
  (58, { param_id := 58, name := "Pitch Variance", param_type := ParameterType.RANGE,
         min_value := some 0, max_value := some 400, default_value := 0 }),
  (70, { param_id := 70, name := "Mod Oscillator Square Wave Polarity",
         param_type := ParameterType.CHOICE,
         choices := [(0, "Unipolar"), (1, "Bipolar")], default_value := 1 }),
  (71, { param_id := 71, name := "Noise Filter Cutoff", param_type := ParameterType.RANGE,
         min_value := some 0, max_value := some 16383, default_value := 16383 }),
  (20, { param_id := 20, name := "Sequence Transpose Mode", param_type := ParameterType.CHOICE,
         choices := [(0, "Relative to First Note"), (1, "Relative to Middle C")],
         default_value := 0 }),
  (21, { param_id := 21, name := "Arp/Seq Keyed Timing Reset", param_type := ParameterType.TOGGLE,
         default_value := 0 }),
  (22, { param_id := 22, name := "Arp FW/BW Repeats", param_type := ParameterType.TOGGLE,
         default_value := 1 }),
  (23, { param_id := 23, name := "Arp/Seq Swing", param_type := ParameterType.RANGE,
         min_value := some 0, max_value := some 16383, default_value := 8192 }),
  (24, { param_id := 24, name := "Sequence Keyboard Control", param_type := ParameterType.TOGGLE,
         default_value := 1 }),
  (25, { param_id := 25, name := "Delay Sequence Change", param_type := ParameterType.TOGGLE,
         default_value := 0 }),
  (26, { param_id := 26, name := "Sequence Keyed Restart", param_type := ParameterType.TOGGLE,
         default_value := 0 }),
  (27, { param_id := 27, name := "Arp/Seq Clock Input Mode", param_type := ParameterType.CHOICE,
         choices := [(0, "Clock"), (1, "Step-Advance")], default_value := 0 }),
  (28, { param_id := 28, name := "Arp/Seq Clock Output", param_type := ParameterType.CHOICE,
         choices := [(0, "Always"), (1, "Only When Playing")], default_value := 1 }),
  (29, { param_id := 29, name := "Arp MIDI Output", param_type := ParameterType.TOGGLE,
         default_value := 1 }),
  (72, { param_id := 72, name := "Arp/Seq Random Repeats", param_type := ParameterType.TOGGLE,
         default_value := 1 }),
  (73, { param_id := 73, name := "ARP/SEQ CV OUT Mirrors KB CV", param_type := ParameterType.TOGGLE,
         default_value := 0 }),
  (74, { param_id := 74, name := "KB CV OUT Mirrors ARP/SEQ CV", param_type := ParameterType.TOGGLE,
         default_value := 0 }),
  (4, { param_id := 4, name := "Send Program Change", param_type := ParameterType.TOGGLE,
        default_value := 0 }),
  (5, { param_id := 5, name := "Receive Program Change", param_type := ParameterType.TOGGLE,
        default_value := 1 }),
  (6, { param_id := 6, name := "MIDI Input Ports", param_type := ParameterType.CHOICE,
        choices := [(0, "None"), (1, "DIN Only"), (2, "USB Only"), (3, "Both")],
        default_value := 3 }),
  (7, { param_id := 7, name := "MIDI Output Ports", param_type := ParameterType.CHOICE,
        choices := [(0, "None"), (1, "DIN Only"), (2, "USB Only"), (3, "Both")],
        default_value := 3 }),
  (8, { param_id := 8, name := "MIDI Echo USB In", param_type := ParameterType.CHOICE,
        choices := [(0, "Off"), (1, "Echo to DIN"), (2, "Echo to USB"), (3, "Echo to Both")],
        default_value := 0 }),
  (9, { param_id := 9, name := "MIDI Echo DIN In", param_type := ParameterType.CHOICE,
        choices := [(0, "Off"), (1, "Echo to DIN"), (2, "Echo to USB"), (3, "Echo to Both")],
        default_value := 0 }),
  (10, { param_id := 10, name := "MIDI Input Channel", param_type := ParameterType.MIDI_CHANNEL,
         default_value := 0 }),
  (11, { param_id := 11, name := "MIDI Output Channel", param_type := ParameterType.MIDI_CHANNEL,
         default_value := 0 }),
  (12, { param_id := 12, name := "MIDI Out Filter - Keys", param_type := ParameterType.TOGGLE,
         default_value := 1 }),
  (13, { param_id := 13, name := "MIDI Out Filter - Wheels", param_type := ParameterType.TOGGLE,
         default_value := 1 }),
  (14, { param_id := 14, name := "MIDI Out Filter - Panel", param_type := ParameterType.TOGGLE,
         default_value := 1 }),
  (15, { param_id := 15, name := "Output 14-bit MIDI CCs", param_type := ParameterType.TOGGLE,
         default_value := 0 }),
  (16, { param_id := 16, name := "Local Control: Keys", param_type := ParameterType.TOGGLE,
         default_value := 1 }),
  (17, { param_id := 17, name := "Local Control: Wheels", param_type := ParameterType.TOGGLE,
         default_value := 1 }),
  (18, { param_id := 18, name := "Local Control: Panel", param_type := ParameterType.TOGGLE,
         default_value := 1 }),
  (19, { param_id := 19, name := "Local Control: Arp/Seq", param_type := ParameterType.TOGGLE,
         default_value := 1 }),
  (30, { param_id := 30, name := "MIDI Clock Input", param_type := ParameterType.CHOICE,
         choices := [(0, "Follow Clock + Start/Stop"), (1, "Follow Clock Only"), (2, "Ignore All")],
         default_value := 0 }),
  (31, { param_id := 31, name := "MIDI Clock Output", param_type := ParameterType.CHOICE,
         choices := [(0, "Send Clock + Start/Stop"), (1, "Send Clock Only"), (2, "Send Nothing")],
         default_value := 0 }),
  (32, { param_id := 32, name := "Follow Song Position Pointer", param_type := ParameterType.TOGGLE,
         default_value := 1 }),
  (35, { param_id := 35, name := "Clock Input PPQN", param_type := ParameterType.CHOICE,
         choices := [(0, "1"), (1, "2"), (2, "3"), (3, "4"), (4, "5"), (5, "6"), (6, "7"),
                     (7, "8"), (8, "9"), (9, "10"), (10, "11"), (11, "12"), (12, "24"), (13, "48")],
         default_value := 3 }),
  (36, { param_id := 36, name := "Clock Output PPQN", param_type := ParameterType.CHOICE,
         choices := [(0, "1"), (1, "2"), (2, "3"), (3, "4"), (4, "5"), (5, "6"), (6, "7"),
                     (7, "8"), (8, "9"), (9, "10"), (10, "11"), (11, "12"), (12, "24"), (13, "48")],
         default_value := 3 }),
  (67, { param_id := 67, name := "Round-Robin Mode", param_type := ParameterType.CHOICE,
         choices := [(0, "Off"), (1, "On with Reset"), (2, "On")], default_value := 1 }),
  (68, { param_id := 68, name := "Restore Stolen Voices", param_type := ParameterType.TOGGLE,
         default_value := 0 }),
  (69, { param_id := 69, name := "Update Unison on Note-Off", param_type := ParameterType.TOGGLE,
         default_value := 0 }),
  (75, { param_id := 75, name := "MIDI Velocity Curves", param_type := ParameterType.CHOICE,
         choices := [(0, "Base"), (1, "Linear"), (2, "Hard"), (3, "Soft")], default_value := 0 }),
  (59, { param_id := 59, name := "KB CV OUT Range", param_type := ParameterType.CHOICE,
         choices := [(0, "-5V to +5V"), (1, "0V to +10V")], default_value := 0 }),
  (60, { param_id := 60, name := "Arp/Seq CV OUT Range", param_type := ParameterType.CHOICE,
         choices := [(0, "-5V to +5V"), (1, "0V to +10V")], default_value := 0 }),
  (61, { param_id := 61, name := "KB VEL OUT Range", param_type := ParameterType.CHOICE,
         choices := [(0, "0V to +5V"), (1, "0V to +10V")], default_value := 0 }),
  (62, { param_id := 62, name := "Arp/Seq VEL OUT Range", param_type := ParameterType.CHOICE,
         choices := [(0, "0V to +5V"), (1, "0V to +10V")], default_value := 0 }),
  (63, { param_id := 63, name := "KB AT OUT Range", param_type := ParameterType.CHOICE,
         choices := [(0, "0V to +5V"), (1, "0V to +10V")], default_value := 0 }),
  (64, { param_id := 64, name := "MOD WHL OUT Range", param_type := ParameterType.CHOICE,
         choices := [(0, "0V to +5V"), (1, "0V to +10V")], default_value := 0 }),
  (65, { param_id := 65, name := "KB GATE OUT Range", param_type := ParameterType.CHOICE,
         choices := [(0, "+5V"), (1, "+10V")], default_value := 0 }),
  (66, { param_id := 66, name := "Arp/Seq GATE OUT Range", param_type := ParameterType.CHOICE,
         choices := [(0, "+5V"), (1, "+10V")], default_value := 0 })]

/-- Source `get_parameter_by_id`: dictionary lookup. -/
def get_parameter_by_id (param_id : Nat) : Option Parameter :=
  (PARAMETERS.find? (fun pr => pr.1 == param_id)).map Prod.snd

/-! ## Connection manager (`src/midi/connection.py`, `MIDIConnectionManager`) -/

/-- The mutable attributes of `MIDIConnectionManager` that the lifecycle
operations read and write.  Port handles are modelled by the presence of
the opened port's name; `stop_set` is the `stop_listening` threading
event; `pending_queries` is the `param_id -> timestamp` dict as an
association list. -/
structure ConnState where
  is_connected : Bool
  is_listening : Bool
  stop_set : Bool
  input_port : Option String
  output_port : Option String
  input_port_name : Option String
  output_port_name : Option String
  pending_queries : List (Nat × Nat)
deriving DecidableEq, Repr

/-- Source `MIDIConnectionManager.cleanup_connection`: clears the connected flag,
closes and drops both port handles, clears the port names.  The
`pending_queries` dict is not touched by the source. -/
def cleanup_connection (s : ConnState) : ConnState :=
  { s with is_connected := false,
           input_port := none, output_port := none,
           input_port_name := none, output_port_name := none }

/-- Source `MIDIConnectionManager.stop_listening_thread`: returns immediately
when not listening; otherwise sets the stop event, joins the thread
(bounded wait, no state effect beyond the thread ending) and clears the
listening flag. -/
def stop_listening_thread (s : ConnState) : ConnState :=
  if s.is_listening = false then s
  else { s with stop_set := true, is_listening := false }

/-- Source `MIDIConnectionManager.disconnect`: stop the listener, then clean up
the connection resources. -/
def disconnect (s : ConnState) : ConnState :=
  cleanup_connection (stop_listening_thread s)

/-- The per-message effect of `_process_incoming_message` on the decoded
stream: a message contributes a `(param_id, value)` pair exactly when it
passes `is_matriarch_sysex` and `parse_parameter_response` succeeds (the
source then deletes the pending entry and invokes `parameter_callback`
with that pair). -/
def decodedOf (m : MidoMsg) : Option (Nat × Nat) :=
  if is_matriarch_sysex m then parse_parameter_response m else none

/-- Source `MIDIConnectionManager.query_parameter_sync`, up to the real-time and
threading abstraction: `arrivals` is the list of messages the listener
processes before the timeout elapses, in order.  The temporary callback
installed by the source records a value and sets the event only for pairs
whose id equals `parameter_id` exactly; the wait returns the value of the
first such pair, or `None` when the send fails or no matching pair is
processed before the timeout. -/
def query_parameter_sync (parameter_id : Nat) (sendOk : Bool)
    (arrivals : List MidoMsg) : Option Nat :=
  if sendOk = false then none
  else (((arrivals.filterMap decodedOf).filter
          (fun pv => pv.1 == parameter_id)).head?).map Prod.snd

/-- Source `MIDIConnectionManager.query_parameter` (the busy-poll
variant, not called anywhere in the source): sends the query, records a
pending entry, polls until the listener removes the entry or the timeout
elapses, and in either case ends at `return None` (the source comments
"Will be improved in full implementation"); `responseArrives` abstracts
whether the listener removes the pending entry before the timeout. -/
def query_parameter (_parameter_id : Nat) (sendOk responseArrives : Bool) : Option Nat :=
  if sendOk = false then none
  else if responseArrives then none
  else none

/-- Source `MIDIConnectionManager.set_parameter`: global 14-bit validation, then
encode and send.  Returns the sent flag and the frame handed to the output
port (none when validation or the send gate fails); `sendOk` models
`send_message` succeeding (connected and write ok). -/
def set_parameter (parameter_id : Nat) (value : Int) (sendOk : Bool) :
    Bool × Option MidoMsg :=
  if validate_parameter_value parameter_id value = false then (false, none)
  else
    let msg := create_parameter_set 0 parameter_id value.toNat
    (sendOk, if sendOk then some msg else none)

/-! ### Bulk query (`query_all_parameters`) with an explicit event trace -/

/-- Observable events of `query_all_parameters`: an inter-query
`time.sleep(self.query_delay)`, a `query_parameter_sync` call for an id,
and a `progress_callback(completed, total)` invocation. -/
inductive QEvent where
  | delay
  | query : Nat → QEvent
  | progress : Nat → Nat → QEvent
deriving DecidableEq, Repr

/-- The inner retry loop of `query_all_parameters` for one parameter:
`remaining` attempts are left and `a` is the current attempt index.  Each
attempt sleeps first when `delayBefore` holds (the source's `if i > 0`,
where `i` is the parameter's position in the batch — the flag is constant
across a parameter's attempts), then queries; a non-`None` result breaks
out of the loop.  `respond pid a` abstracts what `query_parameter_sync`
returns on attempt `a`. -/
def tryAttempts (pid : Nat) (respond : Nat → Nat → Option Nat)
    (delayBefore : Bool) : Nat → Nat → Option Nat × List QEvent
  | 0, _ => (none, [])
  | remaining + 1, a =>
    let ev := (if delayBefore then [QEvent.delay] else []) ++ [QEvent.query pid]
    match respond pid a with
    | some v => (some v, ev)
    | none =>
      let rest := tryAttempts pid respond delayBefore remaining (a + 1)
      (rest.1, ev ++ rest.2)

/-- One iteration of the outer loop of `query_all_parameters`: run the
retry loop for the parameter at position `i`, then report progress
`(i + 1, total)`. -/
def paramBlock (total i pid retry : Nat) (respond : Nat → Nat → Option Nat) :
    Option Nat × List QEvent :=
  let r := tryAttempts pid respond (decide (0 < i)) retry 0
  (r.1, r.2 ++ [QEvent.progress (i + 1) total])

/-- The outer loop of `query_all_parameters`
(`for i, param_id in enumerate(parameter_ids)`), starting at position
`i`: accumulates the results dict and the concatenated event trace. -/
def query_all_go (total retry : Nat) (respond : Nat → Nat → Option Nat) :
    Nat → List Nat → List (Nat × Option Nat) × List QEvent
  | _, [] => ([], [])
  | i, pid :: rest =>
    let b := paramBlock total i pid retry respond
    let r := query_all_go total retry respond (i + 1) rest
    ((pid, b.1) :: r.1, b.2 ++ r.2)

/-- Source `MIDIConnectionManager.query_all_parameters`: processes `ids` in
order; returns the results dict (insertion-ordered association list,
`none` recorded when all attempts failed) together with the event
trace. -/
def query_all_parameters (ids : List Nat) (retry : Nat)
    (respond : Nat → Nat → Option Nat) :
    List (Nat × Option Nat) × List QEvent :=
  query_all_go ids.length retry respond 0 ids

/-- The outcome `query_all_parameters` records for one id (the retry
loop's result, which is independent of the delay flag). -/
def queryOutcome (pid retry : Nat) (respond : Nat → Nat → Option Nat) : Option Nat :=
  (tryAttempts pid respond false retry 0).1

/-- Extract the progress events of a trace. -/
def progressOf : QEvent → Option (Nat × Nat)
  | QEvent.progress a b => some (a, b)
  | _ => none

/-- True when no query event directly follows another query event, i.e.
some wait separates consecutive query attempts. -/
def noAdjacentQueries : List QEvent → Bool
  | QEvent.query _ :: QEvent.query _ :: _ => false
  | _ :: rest => noAdjacentQueries rest
  | [] => true

/-- True when every query event in the trace is immediately preceded by a
delay event. -/
def everyQueryPrecededByDelay : List QEvent → Bool
  | QEvent.delay :: QEvent.query _ :: rest => everyQueryPrecededByDelay rest
  | QEvent.query _ :: _ => false
  | _ :: rest => everyQueryPrecededByDelay rest
  | [] => true

/-! ## Claim theorems -/

/-- C2: for every parameter id in 0..127, unit id, and value `v` in
0..16383 (which covers every declared Range bound in the catalog),
decoding the frame produced by encoding a SET of `(id, v)` yields exactly
`(id, v)`. -/
theorem c2_set_roundtrip (u pid v : Nat) (_hpid : pid ≤ 127) (hv : v ≤ 16383) :
    parse_parameter_response (create_parameter_set u pid v) = some (pid, v) := by
  have hred : parse_parameter_response (create_parameter_set u pid v) =
      some (pid, (if v ≥ 128 then v / 128 else 0) * 128 + v % 128) := rfl
  rw [hred]
  rcases Nat.lt_or_ge v 128 with h | h
  · have h1 : ¬(v ≥ 128) := by omega
    simp only [if_neg h1, Option.some.injEq, Prod.mk.injEq]
    exact ⟨trivial, by omega⟩
  · simp only [if_pos h, Option.some.injEq, Prod.mk.injEq]
    exact ⟨trivial, by omega⟩

/-- C2 witness: concrete round-trip at the declared maximum. -/
theorem c2_set_roundtrip_witness :
    23 ≤ 127 ∧ 16383 ≤ 16383 ∧
      parse_parameter_response (create_parameter_set 0 23 16383) = some (23, 16383) :=
  ⟨by decide, by decide, c2_set_roundtrip 0 23 16383 (by decide) (by decide)⟩

/-- C3 counterexample: a well-formed 14-byte SysEx payload — shorter than
16 bytes — is accepted by the decoder, not rejected: the length check in
the source is on the reconstructed frame including the two delimiters. -/
theorem c3_counterexample :
    ([0x04, 0x17, 0x23, 5, 0, 7, 0, 0, 0, 0, 0, 0, 0, 0] : List Nat).length < 16 ∧
      parse_parameter_response
        ⟨MidoType.sysex, [0x04, 0x17, 0x23, 5, 0, 7, 0, 0, 0, 0, 0, 0, 0, 0]⟩ = some (5, 7) := by
  decide

/-- C3 amended: the decoder rejects (returns `none` for) every SysEx
payload shorter than 14 bytes — i.e. every reconstructed frame, delimiters
included, shorter than 16 bytes — and rejects every SysEx payload whose
first two bytes differ from the manufacturer ID. -/
theorem c3_rejection (payload : List Nat) :
    (payload.length < 14 → parse_parameter_response ⟨MidoType.sysex, payload⟩ = none) ∧
    (payload.take 2 ≠ MANUFACTURER_ID →
      parse_parameter_response ⟨MidoType.sysex, payload⟩ = none) := by
  have hlen : (SYSEX_START :: payload ++ [SYSEX_END]).length = payload.length + 2 := by
    simp
  constructor
  · intro hshort
    unfold parse_parameter_response
    rw [if_neg (by simp)]
    rw [if_pos (by rw [hlen]; omega)]
  · intro hman
    by_cases hshort : payload.length < 14
    · unfold parse_parameter_response
      rw [if_neg (by simp)]
      rw [if_pos (by rw [hlen]; omega)]
    · unfold parse_parameter_response
      rw [if_neg (by simp)]
      rw [if_neg (by rw [hlen]; omega)]
      have hfr : ¬((SYSEX_START :: payload ++ [SYSEX_END]).getD 0 0 ≠ SYSEX_START ∨
          (SYSEX_START :: payload ++ [SYSEX_END]).getLast? ≠ some SYSEX_END) := by
        push_neg
        refine ⟨rfl, ?_⟩
        rw [show SYSEX_START :: payload ++ [SYSEX_END] =
              (SYSEX_START :: payload) ++ [SYSEX_END] from rfl]
        exact List.getLast?_concat _
      rw [if_neg hfr]
      have hdt : ((SYSEX_START :: payload ++ [SYSEX_END]).drop 1).take 2 = payload.take 2 := by
        rw [show (SYSEX_START :: payload ++ [SYSEX_END]).drop 1 = payload ++ [SYSEX_END] from rfl]
        rw [List.take_append_of_le_length (by omega)]
      rw [if_pos (by rw [hdt]; exact hman)]

/-- C3 witness: a one-byte payload is rejected on both grounds. -/
theorem c3_rejection_witness :
    parse_parameter_response ⟨MidoType.sysex, [9]⟩ = none ∧
      parse_parameter_response ⟨MidoType.sysex, [9]⟩ = none :=
  ⟨(c3_rejection [9]).1 (by decide), (c3_rejection [9]).2 (by decide)⟩

/-- C4 counterexample: parameter 0 (Unit ID) has declared catalog bounds
[0, 15], yet `set_parameter(0, 100)` passes validation, sends a frame and
returns the send result (true), instead of returning false without
sending: the source validates only against the global 0..16383 range. -/
theorem c4_counterexample :
    (get_parameter_by_id 0).map (fun p => (p.min_value, p.max_value)) =
        some (some 0, some 15) ∧
      (100 : Int) > 15 ∧
      validate_parameter_value 0 100 = true ∧
      set_parameter 0 100 true = (true, some (create_parameter_set 0 0 100)) := by
  decide

/-- C4 amended: `set_parameter` validates only against the global 14-bit
range: it returns false and sends no frame exactly when the value is
outside 0..16383; any value inside 0..16383 — even one outside the
parameter's declared catalog bounds — is encoded and sent. -/
theorem c4_global_validation_only (pid : Nat) (v : Int) (sendOk : Bool) :
    (v < 0 ∨ v > 16383 → set_parameter pid v sendOk = (false, none)) ∧
    (0 ≤ v → v ≤ 16383 →
      set_parameter pid v sendOk =
        (sendOk, if sendOk then some (create_parameter_set 0 pid v.toNat) else none)) := by
  constructor
  · intro h
    have hval : validate_parameter_value pid v = false := by
      unfold validate_parameter_value
      rw [if_pos h]
    unfold set_parameter
    rw [hval]
    simp
  · intro h1 h2
    have hval : validate_parameter_value pid v = true := by
      unfold validate_parameter_value
      rw [if_neg (by omega)]
    unfold set_parameter
    rw [hval]
    simp

/-- C4 witness: rejection at −5, acceptance at 100. -/
theorem c4_global_validation_only_witness :
    set_parameter 0 (-5) true = (false, none) ∧
      set_parameter 0 100 true = (true, some (create_parameter_set 0 0 100)) := by
  refine ⟨(c4_global_validation_only 0 (-5) true).1 (Or.inl (by decide)), ?_⟩
  have h := (c4_global_validation_only 0 100 true).2 (by decide) (by decide)
  simpa using h

/-- C5 counterexample: `disconnect` leaves the pending-query table
untouched — a state with a pending query for parameter 5 still has it
after disconnecting, so the table is not empty as the claim requires. -/
theorem c5_counterexample :
    (disconnect { is_connected := true, is_listening := true, stop_set := false,
                  input_port := some "in", output_port := some "out",
                  input_port_name := some "in", output_port_name := some "out",
                  pending_queries := [(5, 100)] }).pending_queries = [(5, 100)] ∧
      ([(5, 100)] : List (Nat × Nat)) ≠ [] := by
  constructor
  · rfl
  · decide

/-- C5 amended: after `disconnect`, from every starting state, the
listener is stopped, both port handles are closed and the state is
Disconnected — but the pending-query table is left exactly as it was (the
source never clears it), so an in-flight query is not unblocked early and
waits out its own timeout. -/
theorem c5_disconnect_state (s : ConnState) :
    (disconnect s).is_connected = false ∧
    (disconnect s).is_listening = false ∧
    (disconnect s).input_port = none ∧
    (disconnect s).output_port = none ∧
    (disconnect s).pending_queries = s.pending_queries := by
  unfold disconnect cleanup_connection stop_listening_thread
  by_cases h : s.is_listening = false <;> simp [h]

/-- C7: `disconnect` is idempotent — a second call changes nothing and the
end state is Disconnected with no open ports and the listener stopped. -/
theorem c7_disconnect_idempotent (s : ConnState) :
    disconnect (disconnect s) = disconnect s ∧
    (disconnect s).is_connected = false ∧
    (disconnect s).input_port = none ∧
    (disconnect s).output_port = none ∧
    (disconnect s).is_listening = false := by
  cases s with
  | mk c l st ip op ipn opn pq =>
    cases l <;> simp [disconnect, cleanup_connection, stop_listening_thread]

/-- C8: every catalog parameter's default value is a fixed point of its
own validation rule. -/
theorem c8_default_validation_noop :
    ∀ pr ∈ PARAMETERS, validate_value pr.2 pr.2.default_value = pr.2.default_value := by
  decide

/-- C8 witness: the first catalog entry (Unit ID, default 0). -/
theorem c8_default_validation_noop_witness :
    validate_value { param_id := 0, name := "Unit ID", param_type := ParameterType.RANGE,
                     min_value := some 0, max_value := some 15, default_value := 0 } 0 = 0 :=
  c8_default_validation_noop
    (0, { param_id := 0, name := "Unit ID", param_type := ParameterType.RANGE,
          min_value := some 0, max_value := some 15, default_value := 0 })
    (by decide)

/-- Unfolding `validate_value` at a `TOGGLE` parameter. -/
theorem validate_value_eq_TOGGLE (p : Parameter) (h : p.param_type = ParameterType.TOGGLE)
    (v : Int) : validate_value p v = if v ≠ 0 then 1 else 0 := by
  unfold validate_value
  rw [h]

/-- Unfolding `validate_value` at a `CHOICE` parameter. -/
theorem validate_value_eq_CHOICE (p : Parameter) (h : p.param_type = ParameterType.CHOICE)
    (v : Int) :
    validate_value p v =
      if v ∈ p.choices.map Prod.fst then v else closestChoice v (p.choices.map Prod.fst) := by
  unfold validate_value
  rw [h]

/-- Unfolding `validate_value` at a `RANGE` parameter with both bounds. -/
theorem validate_value_eq_RANGE (p : Parameter) (h : p.param_type = ParameterType.RANGE)
    (lo hi : Int) (hlo : p.min_value = some lo) (hhi : p.max_value = some hi) (v : Int) :
    validate_value p v = max lo (min hi v) := by
  unfold validate_value
  rw [h, hlo, hhi]

/-- Unfolding `validate_value` at a `RANGE` parameter lacking a bound
(the source falls through to `return value`). -/
theorem validate_value_eq_RANGE_unbounded (p : Parameter)
    (h : p.param_type = ParameterType.RANGE)
    (hnb : p.min_value = none ∨ p.max_value = none) (v : Int) :
    validate_value p v = v := by
  unfold validate_value
  rw [h]
  rcases hnb with hnb | hnb
  · rw [hnb]
  · rw [hnb]
    rcases p.min_value with _ | lo <;> rfl

/-- Unfolding `validate_value` at a `MIDI_CHANNEL` parameter. -/
theorem validate_value_eq_MIDI_CHANNEL (p : Parameter)
    (h : p.param_type = ParameterType.MIDI_CHANNEL) (v : Int) :
    validate_value p v = max 0 (min 15 v) := by
  unfold validate_value
  rw [h]

/-- C9: catalog validation clamps to the nearest legal value — a Choice
parameter whose codes are exactly 0, 1, 2 validates 5 to 2 (the
numerically closest code), and a Range parameter with bounds [0, 16383]
validates −1 to 0. -/
theorem c9_validation_clamp (p q : Parameter)
    (hp : p.param_type = ParameterType.CHOICE)
    (hpc : p.choices.map Prod.fst = [0, 1, 2])
    (hq : q.param_type = ParameterType.RANGE)
    (hqlo : q.min_value = some 0) (hqhi : q.max_value = some 16383) :
    validate_value p 5 = 2 ∧ validate_value q (-1) = 0 := by
  constructor
  · rw [validate_value_eq_CHOICE p hp, hpc]
    decide
  · rw [validate_value_eq_RANGE q hq 0 16383 hqlo hqhi]
    decide

/-- C9 witness: Knob Mode (choices 0,1,2) and Noise Filter Cutoff
(range [0,16383]) from the catalog. -/
theorem c9_validation_clamp_witness :
    validate_value { param_id := 2, name := "Knob Mode", param_type := ParameterType.CHOICE,
                     choices := [(0, "Snap"), (1, "Pass-Thru"), (2, "Relative")],
                     default_value := 2 } 5 = 2 ∧
      validate_value { param_id := 71, name := "Noise Filter Cutoff",
                       param_type := ParameterType.RANGE, min_value := some 0,
                       max_value := some 16383, default_value := 16383 } (-1) = 0 :=
  c9_validation_clamp _ _ rfl (by decide) rfl rfl rfl

/-- The fold inside `closestChoice` yields its initial accumulator or an
element of the scanned list. -/
theorem foldl_closest_mem (v : Int) (ks : List Int) (b : Int) :
    (ks.foldl (fun best x => if |x - v| < |best - v| then x else best) b) = b ∨
      (ks.foldl (fun best x => if |x - v| < |best - v| then x else best) b) ∈ ks := by
  induction ks generalizing b with
  | nil =>
    left
    rfl
  | cons x xs ih =>
    simp only [List.foldl_cons]
    rcases ih (if |x - v| < |b - v| then x else b) with h | h
    · rw [h]
      by_cases hc : |x - v| < |b - v|
      · right
        simp [hc]
      · left
        simp [hc]
    · right
      exact List.mem_cons_of_mem _ h

/-- On a non-empty key list, `closestChoice` returns one of the keys. -/
theorem closestChoice_mem (v : Int) (keys : List Int) (h : keys ≠ []) :
    closestChoice v keys ∈ keys := by
  cases keys with
  | nil => exact absurd rfl h
  | cons k ks =>
    show (ks.foldl (fun best x => if |x - v| < |best - v| then x else best) k) ∈ k :: ks
    rcases foldl_closest_mem v ks k with h1 | h1
    · rw [h1]
      exact List.mem_cons_self _ _
    · exact List.mem_cons_of_mem _ h1

/-- Validation `validate_value` is idempotent for every parameter whose `choices`
list is non-empty when its type is `CHOICE` (for other types,
unconditionally). -/
theorem validate_value_idem (p : Parameter)
    (hc : p.param_type = ParameterType.CHOICE → p.choices ≠ []) (v : Int) :
    validate_value p (validate_value p v) = validate_value p v := by
  rcases htype : p.param_type with _ | _ | _ | _
  · rw [validate_value_eq_TOGGLE p htype, validate_value_eq_TOGGLE p htype]
    by_cases h : v = 0 <;> simp [h]
  · have hne : p.choices.map Prod.fst ≠ [] := by
      simp only [ne_eq, List.map_eq_nil_iff]
      exact hc htype
    rw [validate_value_eq_CHOICE p htype, validate_value_eq_CHOICE p htype]
    by_cases hmem : v ∈ p.choices.map Prod.fst
    · simp [hmem]
    · rw [if_neg hmem]
      rw [if_pos (closestChoice_mem v _ hne)]
  · rcases hmin : p.min_value with _ | lo
    · rw [validate_value_eq_RANGE_unbounded p htype (Or.inl hmin),
         validate_value_eq_RANGE_unbounded p htype (Or.inl hmin)]
    · rcases hmax : p.max_value with _ | hi
      · rw [validate_value_eq_RANGE_unbounded p htype (Or.inr hmax),
           validate_value_eq_RANGE_unbounded p htype (Or.inr hmax)]
      · rw [validate_value_eq_RANGE p htype lo hi hmin hmax,
           validate_value_eq_RANGE p htype lo hi hmin hmax]
        simp only [max_def, min_def]
        split_ifs <;> omega
  · rw [validate_value_eq_MIDI_CHANNEL p htype, validate_value_eq_MIDI_CHANNEL p htype]
    simp only [max_def, min_def]
    split_ifs <;> omega

/-- C10: catalog validation is idempotent — for every parameter in the
static catalog and every integer, validating twice equals validating
once. -/
theorem c10_validation_idempotent :
    ∀ pr ∈ PARAMETERS, ∀ v : Int,
      validate_value pr.2 (validate_value pr.2 v) = validate_value pr.2 v := by
  intro pr hpr v
  apply validate_value_idem
  intro hcho
  have hall : PARAMETERS.all
      (fun q => !(q.2.param_type == ParameterType.CHOICE) || !q.2.choices.isEmpty) = true := by
    decide
  rw [List.all_eq_true] at hall
  have hq := hall pr hpr
  rw [hcho] at hq
  simp only [beq_self_eq_true, Bool.not_true, Bool.false_or, Bool.not_eq_true'] at hq
  intro hnil
  rw [hnil] at hq
  simp at hq

/-- C10 witness: the first catalog entry at value 5. -/
theorem c10_validation_idempotent_witness :
    validate_value { param_id := 0, name := "Unit ID", param_type := ParameterType.RANGE,
                     min_value := some 0, max_value := some 15, default_value := 0 }
        (validate_value { param_id := 0, name := "Unit ID",
                          param_type := ParameterType.RANGE, min_value := some 0,
                          max_value := some 15, default_value := 0 } 99) =
      validate_value { param_id := 0, name := "Unit ID", param_type := ParameterType.RANGE,
                       min_value := some 0, max_value := some 15, default_value := 0 } 99 :=
  c10_validation_idempotent
    (0, { param_id := 0, name := "Unit ID", param_type := ParameterType.RANGE,
          min_value := some 0, max_value := some 15, default_value := 0 })
    (by decide) 99

/-- C1: `query_parameter_sync` (the synchronous `queryOne`), with the
listener's activity before the timeout modelled as the `arrivals` list:
after a successful send, Option-valued return makes the two outcomes
mutually exclusive; a value is returned only if it was decoded from an
arrival for that exact id (no value for a different id ever leaks), and
`none` is returned exactly when no decoded response for that id is
processed before the timeout elapses. -/
theorem c1_query_one_outcomes (parameter_id : Nat) (arrivals : List MidoMsg) :
    (∀ v, query_parameter_sync parameter_id true arrivals = some v →
        ∃ m ∈ arrivals, decodedOf m = some (parameter_id, v)) ∧
    (query_parameter_sync parameter_id true arrivals = none ↔
        ∀ m ∈ arrivals, ∀ v, decodedOf m ≠ some (parameter_id, v)) := by
  unfold query_parameter_sync
  simp only [Bool.true_eq_false, if_false]
  constructor
  · intro v hv
    rcases Option.map_eq_some'.mp hv with ⟨pv, hhead, hsnd⟩
    have hmemf : pv ∈ (arrivals.filterMap decodedOf).filter
        (fun pv => pv.1 == parameter_id) := List.mem_of_mem_head? hhead
    rw [List.mem_filter] at hmemf
    rcases hmemf with ⟨hmem, hfst⟩
    rcases List.mem_filterMap.mp hmem with ⟨m, hm, hdec⟩
    refine ⟨m, hm, ?_⟩
    rw [hdec]
    have h1 : pv.1 = parameter_id := by
      exact beq_iff_eq.mp hfst
    rw [← h1, ← hsnd]
  · rw [Option.map_eq_none', List.head?_eq_none_iff, List.filter_eq_nil_iff]
    constructor
    · intro hnone m hm v hdec
      have hmem : (parameter_id, v) ∈ arrivals.filterMap decodedOf :=
        List.mem_filterMap.mpr ⟨m, hm, hdec⟩
      have := hnone _ hmem
      simp at this
    · intro hno pv hpv
      rcases List.mem_filterMap.mp hpv with ⟨m, hm, hdec⟩
      simp only [beq_iff_eq]
      intro hfst
      exact hno m hm pv.2 (by rw [hdec, ← hfst])

/-- C1 witness: instantiation at parameter 5 with a single matching
arrival (the device's response frame for parameter 5, value 7). -/
theorem c1_query_one_outcomes_witness :
    (∀ v, query_parameter_sync 5 true [create_parameter_set 0 5 7] = some v →
        ∃ m ∈ [create_parameter_set 0 5 7], decodedOf m = some (5, v)) ∧
    (query_parameter_sync 5 true [create_parameter_set 0 5 7] = none ↔
        ∀ m ∈ [create_parameter_set 0 5 7], ∀ v, decodedOf m ≠ some (5, v)) :=
  c1_query_one_outcomes 5 [create_parameter_set 0 5 7]

/-- The retry loop's result does not depend on the delay flag. -/
theorem tryAttempts_fst_delay_irrel (pid : Nat) (respond : Nat → Nat → Option Nat)
    (d₁ d₂ : Bool) (n : Nat) : ∀ a,
    (tryAttempts pid respond d₁ n a).1 = (tryAttempts pid respond d₂ n a).1 := by
  induction n with
  | zero =>
    intro a
    rfl
  | succ n ih =>
    intro a
    unfold tryAttempts
    cases h : respond pid a with
    | some v => simp [h]
    | none => simp [h, ih (a + 1)]

/-- The retry loop yields `none` exactly when every attempt in its window
fails. -/
theorem tryAttempts_fst_none_iff (pid : Nat) (respond : Nat → Nat → Option Nat)
    (d : Bool) (n : Nat) : ∀ a,
    (tryAttempts pid respond d n a).1 = none ↔ ∀ j, j < n → respond pid (a + j) = none := by
  induction n with
  | zero =>
    intro a
    simp [tryAttempts]
  | succ n ih =>
    intro a
    unfold tryAttempts
    cases h : respond pid a with
    | some v =>
      simp only [h]
      constructor
      · intro hfalse
        simp at hfalse
      · intro hall
        have := hall 0 (by omega)
        rw [Nat.add_zero] at this
        rw [this] at h
        exact absurd h (by simp)
    | none =>
      simp only [h]
      rw [show (let rest := tryAttempts pid respond d n (a + 1);
            ((rest.1 : Option Nat), (if d then [QEvent.delay] else []) ++
              [QEvent.query pid] ++ rest.2)).1 = (tryAttempts pid respond d n (a + 1)).1
          from rfl]
      rw [ih (a + 1)]
      constructor
      · intro hrest j hj
        cases j with
        | zero => simpa using h
        | succ j' =>
          have := hrest j' (by omega)
          rw [show a + 1 + j' = a + (j' + 1) by omega] at this
          exact this
      · intro hall j hj
        have := hall (j + 1) (by omega)
        rw [show a + (j + 1) = a + 1 + j by omega] at this
        exact this

/-- The retry loop's event list is some number `k ≤ n` of repetitions of
one attempt's events (an optional delay followed by the query). -/
theorem tryAttempts_snd_shape (pid : Nat) (respond : Nat → Nat → Option Nat)
    (d : Bool) (n : Nat) : ∀ a, ∃ k ≤ n,
    (tryAttempts pid respond d n a).2 =
      (List.replicate k ((if d then [QEvent.delay] else []) ++ [QEvent.query pid])).flatten := by
  induction n with
  | zero =>
    intro a
    exact ⟨0, Nat.le_refl 0, rfl⟩
  | succ n ih =>
    intro a
    unfold tryAttempts
    cases h : respond pid a with
    | some v =>
      refine ⟨1, by omega, ?_⟩
      simp [h, List.replicate_succ]
    | none =>
      rcases ih (a + 1) with ⟨k, hk, hshape⟩
      refine ⟨k + 1, by omega, ?_⟩
      simp only [h, List.replicate_succ, List.flatten_cons]
      simp [hshape]

/-- The retry loop emits no progress events. -/
theorem tryAttempts_snd_no_progress (pid : Nat) (respond : Nat → Nat → Option Nat)
    (d : Bool) (n : Nat) : ∀ a,
    (tryAttempts pid respond d n a).2.filterMap progressOf = [] := by
  induction n with
  | zero =>
    intro a
    rfl
  | succ n ih =>
    intro a
    unfold tryAttempts
    cases h : respond pid a with
    | some v =>
      cases d <;> simp [h, progressOf]
    | none =>
      cases d <;> simp [h, progressOf, ih (a + 1)]

/-- Results of the outer loop: each id maps, in order, to its retry
outcome. -/
theorem query_all_go_results (total retry : Nat) (respond : Nat → Nat → Option Nat) :
    ∀ ids i, (query_all_go total retry respond i ids).1 =
      ids.map (fun pid => (pid, queryOutcome pid retry respond)) := by
  intro ids
  induction ids with
  | nil =>
    intro i
    rfl
  | cons pid rest ih =>
    intro i
    unfold query_all_go paramBlock
    simp only [List.map_cons]
    rw [show (queryOutcome pid retry respond) =
        (tryAttempts pid respond (decide (0 < i)) retry 0).1 from
      tryAttempts_fst_delay_irrel pid respond false (decide (0 < i)) retry 0]
    simp [ih (i + 1)]

/-- Progress events of the outer loop starting at position `i`: one per
id, counters `i+1, i+2, …`. -/
theorem query_all_go_progress (total retry : Nat) (respond : Nat → Nat → Option Nat) :
    ∀ ids i, (query_all_go total retry respond i ids).2.filterMap progressOf =
      (List.range ids.length).map (fun k => (i + 1 + k, total)) := by
  intro ids
  induction ids with
  | nil =>
    intro i
    rfl
  | cons pid rest ih =>
    intro i
    unfold query_all_go paramBlock
    simp only [List.filterMap_append, tryAttempts_snd_no_progress, List.length_cons,
      List.range_succ_eq_map, List.map_cons, List.map_map]
    rw [ih (i + 1)]
    simp only [List.nil_append, List.filterMap_cons, progressOf, List.map_map]
    refine congrArg₂ _ rfl ?_
    apply List.map_congr_left
    intro a _
    simp only [Function.comp_apply, Nat.succ_eq_add_one]
    refine congrArg₂ _ (by omega) rfl

/-- Peeling one delay-query pair off a trace prefix. -/
theorem eqpd_delay_query_cons (pid : Nat) (l : List QEvent) :
    everyQueryPrecededByDelay (QEvent.delay :: QEvent.query pid :: l) =
      everyQueryPrecededByDelay l := rfl

/-- A progress event does not affect the delay-before-query property. -/
theorem eqpd_progress_cons (a b : Nat) (l : List QEvent) :
    everyQueryPrecededByDelay (QEvent.progress a b :: l) =
      everyQueryPrecededByDelay l := rfl

/-- A prefix of delay-query pairs preserves the delay-before-query
property of the remainder. -/
theorem eqpd_replicate_pairs (pid : Nat) (k : Nat) (l : List QEvent) :
    everyQueryPrecededByDelay
        ((List.replicate k [QEvent.delay, QEvent.query pid]).flatten ++ l) =
      everyQueryPrecededByDelay l := by
  induction k with
  | zero => rfl
  | succ k ih =>
    rw [List.replicate_succ, List.flatten_cons]
    simp only [List.cons_append, List.nil_append]
    rw [eqpd_delay_query_cons]
    exact ih

/-- Every trace of the outer loop started at a positive position
satisfies the delay-before-query property: each attempt for such ids is
immediately preceded by an inter-query delay. -/
theorem query_all_go_eqpd (total retry : Nat) (respond : Nat → Nat → Option Nat) :
    ∀ ids i, 1 ≤ i →
      everyQueryPrecededByDelay (query_all_go total retry respond i ids).2 = true := by
  intro ids
  induction ids with
  | nil =>
    intro i _
    rfl
  | cons pid rest ih =>
    intro i hi
    unfold query_all_go paramBlock
    have hd : (decide (0 < i)) = true := by
      simp
      omega
    rw [hd]
    rcases tryAttempts_snd_shape pid respond true retry 0 with ⟨k, _, hshape⟩
    simp only [hshape, if_true, List.singleton_append]
    simp only [List.append_assoc, List.singleton_append]
    rw [eqpd_replicate_pairs]
    rw [eqpd_progress_cons]
    exact ih (i + 1) (by omega)

/-- C6 counterexample: `queryAll([5], retryCount=2)` against a transport
that never answers makes its two attempts back-to-back with no inter-query
delay between them (the source's delay condition tests the parameter's
batch position, not the attempt number), refuting the claimed delay
between consecutive attempts. -/
theorem c6_counterexample :
    (query_all_parameters [5] 2 (fun _ _ => none)).2 =
        [QEvent.query 5, QEvent.query 5, QEvent.progress 1 1] ∧
      noAdjacentQueries (query_all_parameters [5] 2 (fun _ _ => none)).2 = false := by
  constructor
  · rfl
  · rfl

/-- C6 amended: `queryAll` processes the ids strictly in order, attempts
each up to `retry` times recording `none` exactly when all its attempts
fail, and calls progress once per id with a strictly increasing counter
`1, 2, …, total`; the inter-query delay, however, is waited before every
attempt of every id after the first id of the batch, and before no attempt
of the first id (not between consecutive attempts of the first id). -/
theorem c6_query_all_behavior (ids : List Nat) (retry : Nat)
    (respond : Nat → Nat → Option Nat) :
    (query_all_parameters ids retry respond).1 =
        ids.map (fun pid => (pid, queryOutcome pid retry respond)) ∧
    (∀ pid, queryOutcome pid retry respond = none ↔ ∀ a, a < retry → respond pid a = none) ∧
    ((query_all_parameters ids retry respond).2.filterMap progressOf =
        (List.range ids.length).map (fun k => (k + 1, ids.length))) ∧
    (∀ pid0 rest, ids = pid0 :: rest →
      ∃ k ≤ retry, ∃ tail,
        (query_all_parameters ids retry respond).2 =
          (List.replicate k [QEvent.query pid0]).flatten ++
            (QEvent.progress 1 ids.length :: tail) ∧
        everyQueryPrecededByDelay tail = true) := by
  refine ⟨?_, ?_, ?_, ?_⟩
  · exact query_all_go_results ids.length retry respond ids 0
  · intro pid
    unfold queryOutcome
    rw [tryAttempts_fst_none_iff]
    constructor
    · intro h j hj
      have := h j hj
      rwa [Nat.zero_add] at this
    · intro h j hj
      rw [Nat.zero_add]
      exact h j hj
  · show List.filterMap progressOf (query_all_go ids.length retry respond 0 ids).2 =
        List.map (fun k => (k + 1, ids.length)) (List.range ids.length)
    rw [query_all_go_progress ids.length retry respond ids 0]
    apply List.map_congr_left
    intro a _
    refine congrArg₂ _ (by omega) rfl
  · intro pid0 rest hids
    subst hids
    rcases tryAttempts_snd_shape pid0 respond (decide (0 < 0)) retry 0 with ⟨k, hk, hshape⟩
    refine ⟨k, hk, (query_all_go (pid0 :: rest).length retry respond 1 rest).2, ?_, ?_⟩
    · have hstep : (query_all_parameters (pid0 :: rest) retry respond).2 =
          (paramBlock (pid0 :: rest).length 0 pid0 retry respond).2 ++
            (query_all_go (pid0 :: rest).length retry respond 1 rest).2 := rfl
      rw [hstep]
      unfold paramBlock
      simp only [hshape]
      have hev : ((if decide (0 < 0) then [QEvent.delay] else []) ++ [QEvent.query pid0]) =
          [QEvent.query pid0] := rfl
      rw [hev]
      simp [List.append_assoc]
    · exact query_all_go_eqpd (pid0 :: rest).length retry respond rest 1 (by omega)

/-- C6 witness: the spec's own scenario — ids [5, 10, 15], two attempts,
transport answering only parameter 10 — yields `{5: nil, 10: 7, 15: nil}`
and progress calls (1,3), (2,3), (3,3). -/
theorem c6_query_all_behavior_witness :
    (query_all_parameters [5, 10, 15] 2
        (fun pid _ => if pid == 10 then some 7 else none)).1 =
      [(5, none), (10, some 7), (15, none)] ∧
    (query_all_parameters [5, 10, 15] 2
        (fun pid _ => if pid == 10 then some 7 else none)).2.filterMap progressOf =
      [(1, 3), (2, 3), (3, 3)] := by
  have h := c6_query_all_behavior [5, 10, 15] 2
    (fun pid _ => if pid == 10 then some 7 else none)
  refine ⟨?_, ?_⟩
  · rw [h.1]
    rfl
  · rw [h.2.2.1]
    rfl

/-- Sanity: the catalog ids are distinct and the catalog has 75 entries. -/
theorem PARAMETERS_ids_nodup : PARAMETERS.length = 75 ∧ (PARAMETERS.map Prod.fst).Nodup := by
  decide

/-- Sanity: the unused busy-poll `query_parameter` never returns a value,
whatever happens on the wire — the synchronous contract of the spec is
carried by `query_parameter_sync` alone. -/
theorem query_parameter_always_none (pid : Nat) (sendOk responseArrives : Bool) :
    query_parameter pid sendOk responseArrives = none := by
  unfold query_parameter
  split_ifs <;> rfl
